import Mathlib

/-!
Shallow embedding of the Focus Monitoring & Gamification Engine
(homework-focus-guardian): the sampling cycle (`performCheck`), the stats
accumulator (`updateStats`), the audio-feedback arbitration (`speak`),
the log buffer and the classifier wrapper (`analyzeFrame`), translated
from `src/App.tsx` and `src/services/monitorService.ts`.

Times are in milliseconds (`Nat`, as `Date.now()` yields integers);
elapsed durations are rationals (JS division by 1000); stats counters
are integers (JS numbers receiving integer increments).
-/

namespace FocusGuardian

/-- Modelled from the spec: `src/types.ts` is not under `src/`; the
`FocusStatus` closed enumeration is given by spec §3 and by its uses in
`App.tsx` and `monitorService.ts`. -/
inductive FocusStatus where
  | IDLE
  | FOCUSED
  | DISTRACTED
  | ABSENT
  | ERROR
deriving DecidableEq, Repr

/-- Modelled from the spec: `src/types.ts` is not under `src/`; the
`AnalysisResult` shape (status, message, confidence) is given by spec §3
and the response schema in `monitorService.ts`. -/
structure AnalysisResult where
  status : FocusStatus
  message : String
  confidence : ℚ
deriving DecidableEq, Repr

/-- Modelled from the spec: `src/types.ts` is not under `src/`; the
`LogEntry` shape is given by spec §3 and its construction site in
`App.tsx` (`performCheck`). `timestamp` is the creation instant in ms. -/
structure LogEntry where
  id : String
  timestamp : ℕ
  status : FocusStatus
  message : String
deriving DecidableEq, Repr

/-- Modelled from the spec: `src/types.ts` is not under `src/`; the
`UserStats` shape is given by spec §3 and its initialization in
`App.tsx`. Counters are integers (they receive `Math.floor` increments
starting from 0). -/
structure UserStats where
  totalFocusTimeSeconds : ℤ
  currentStreakSeconds : ℤ
  longestStreakSeconds : ℤ
  distractionCount : ℤ
  badges : List String
deriving DecidableEq, Repr

/-- The all-zero initial stats, from the `useState` initializer in `App.tsx`. -/
def initialStats : UserStats :=
  { totalFocusTimeSeconds := 0
    currentStreakSeconds := 0
    longestStreakSeconds := 0
    distractionCount := 0
    badges := [] }

/-- Modelled from the spec: `src/services/gamification.ts` is not under
`src/`; per spec §4.3 a badge catalog entry carries an id and an
eligibility predicate over `UserStats` (name/icon omitted: no claim
reads them). -/
structure BadgeDef where
  id : String
  pred : UserStats → Bool

/-- Modelled from the spec: `src/services/gamification.ts` is not under
`src/`. Per spec §4.3, `checkBadges` scans the catalog in order and
returns the first badge whose id is not already earned and whose
predicate holds on the stats; otherwise none. -/
def checkBadges (catalog : List BadgeDef) (stats : UserStats)
    (earned : List String) : Option BadgeDef :=
  catalog.find? (fun b => !(earned.contains b.id) && b.pred stats)

/-- The numeric branch of `updateStats` (`App.tsx` lines 86–104): compute
`validElapsed` from `elapsedSeconds`, then branch on the status. -/
def applyStatus (prev : UserStats) (newStatus : FocusStatus)
    (elapsedSeconds : ℚ) : UserStats :=
  let validElapsed : ℚ := if elapsedSeconds > 20 then 0 else min elapsedSeconds 10
  if newStatus = FocusStatus.FOCUSED then
    let streak := prev.currentStreakSeconds + Int.floor validElapsed
    { prev with
      totalFocusTimeSeconds := prev.totalFocusTimeSeconds + Int.floor validElapsed
      currentStreakSeconds := streak
      longestStreakSeconds :=
        if streak > prev.longestStreakSeconds then streak
        else prev.longestStreakSeconds }
  else if newStatus = FocusStatus.DISTRACTED ∨ newStatus = FocusStatus.ABSENT then
    { prev with
      currentStreakSeconds := 0
      distractionCount := prev.distractionCount + 1 }
  else
    prev

/-- The function updateStats from `App.tsx`: the numeric update followed by the
unconditional badge check; a returned badge's id is appended to
`badges`. Also returns the badge (used by the caller for the toast and
the spoken announcement). The catalog is a parameter because
`gamification.ts` is not under `src/`. -/
def updateStats (catalog : List BadgeDef) (prev : UserStats)
    (newStatus : FocusStatus) (elapsedSeconds : ℚ) :
    UserStats × Option BadgeDef :=
  let newStats := applyStatus prev newStatus elapsedSeconds
  match checkBadges catalog newStats newStats.badges with
  | some b => ({ newStats with badges := newStats.badges ++ [b.id] }, some b)
  | none => (newStats, none)

/-- The possible outcomes of the external classifier call inside
`analyzeFrame` (`monitorService.ts`): the `generateContent` promise
rejects (network/service error); it resolves but `response.text` is
null/empty; `JSON.parse` on the text throws (malformed response); or the
parse yields an `AnalysisResult`. -/
inductive ClassifierOutcome where
  | callFailed
  | emptyText
  | badJson
  | parsed (r : AnalysisResult)
deriving DecidableEq, Repr

/-- The function analyzeFrame from `monitorService.ts`. `apiKey` models
`process.env.API_KEY` (`none` = undefined; the JS guard `if (!apiKey)`
is also true for the empty string). The missing-key `throw` sits before
the `try` block, so it is an `Except.error`; every outcome inside the
`try` is caught and replaced by the synthetic `ERROR` result. The image
argument is kept for signature fidelity but (after the data-URL-prefix
strip) only flows into the external call, which `outcome` abstracts. -/
def analyzeFrame (apiKey : Option String) (base64Image : String)
    (outcome : ClassifierOutcome) : Except String AnalysisResult :=
  if apiKey = none ∨ apiKey = some "" then
    Except.error "API Key is missing."
  else
    let _ := base64Image
    match outcome with
    | ClassifierOutcome.parsed r => Except.ok r
    | _ =>
        Except.ok
          { status := FocusStatus.ERROR
            message := "Analysis failed"
            confidence := 0 }

/-- The audio-related configuration read by `speak` (`App.tsx`):
the `audioEnabled` and `useCustomAudio` flags, the stored custom clip
(`customAudio`, `none` = null), and whether `window.speechSynthesis`
exists in the environment. -/
structure AudioConfig where
  audioEnabled : Bool
  useCustomAudio : Bool
  customAudio : Option String
  ttsAvailable : Bool
deriving DecidableEq, Repr

/-- A vocalization intent: nothing, play the stored custom clip, or
synthesize speech from a text (spec §9 recommends exactly this tagged
decision). -/
inductive VoiceIntent where
  | silent
  | customClip (clip : String)
  | tts (text : String)
deriving DecidableEq, Repr

/-- JS truthiness of the nullable `customAudio` string: non-null and
non-empty. -/
def truthyString : Option String → Bool
  | none => false
  | some s => s ≠ ""

/-- The function speak from `App.tsx`. `st` is the `status` React state captured by
the `useCallback` closure: the status rendered before the current cycle,
not the current cycle's classification. Custom audio wins when enabled,
stored, and `st` is DISTRACTED or ABSENT; otherwise fall through to
speech synthesis when available. -/
def speak (cfg : AudioConfig) (st : FocusStatus) (text : String) : VoiceIntent :=
  if !cfg.audioEnabled then VoiceIntent.silent
  else if cfg.useCustomAudio && truthyString cfg.customAudio
      && (st = FocusStatus.DISTRACTED || st = FocusStatus.ABSENT) then
    VoiceIntent.customClip (cfg.customAudio.getD "")
  else if !cfg.ttsAvailable then VoiceIntent.silent
  else VoiceIntent.tts text

/-- The helper mkLogEntry: the log-entry construction in `performCheck`
(`App.tsx`): `id` is `Date.now().toString()` (decimal rendering of the
creation time in ms), `timestamp` is `new Date()` at the same instant. -/
def mkLogEntry (now : ℕ) (st : FocusStatus) (msg : String) : LogEntry :=
  { id := toString now, timestamp := now, status := st, message := msg }

/-- The log-buffer update in `performCheck` (`App.tsx`):
`[newEntry, ...prev].slice(0, 50)` — prepend, then truncate to the first
50 entries. -/
def appendLog (entry : LogEntry) (logs : List LogEntry) : List LogEntry :=
  (entry :: logs).take 50

/-- The engine state a cycle reads and writes: the stats aggregate, the
checkpoint clock (`lastCheckTimeRef`, ms), the log buffer, and the
rendered `status` / `lastMessage` React state. -/
structure AppState where
  stats : UserStats
  lastCheckTime : ℕ
  logs : List LogEntry
  status : FocusStatus
  lastMessage : String
deriving DecidableEq, Repr

/-- The observable side effects of one cycle: whether a log entry was
appended, whether the badge evaluator was invoked, the arbitrated
message vocalization, the newly-earned badge id (if any), and whether a
badge announcement utterance was spoken. -/
structure CycleEffects where
  logAppended : Bool
  badgeEvaluated : Bool
  voice : VoiceIntent
  newBadgeId : Option String
  badgeAnnounced : Bool
deriving DecidableEq, Repr

/-- The effects of a cycle that ran nothing (frame unavailable, or the
thrown classifier failure swallowed by `performCheck`'s catch). -/
def noEffects : CycleEffects :=
  { logAppended := false
    badgeEvaluated := false
    voice := VoiceIntent.silent
    newBadgeId := none
    badgeAnnounced := false }

/-- The function performCheck from `App.tsx`, one sampling cycle.
`tStart` is the instant the cycle begins (the checkpoint clock is reset
to it *before* capture/classification); `now` is the instant the awaited
classification resolves and the state updates run (`tStart` + processing
latency); `frame` is `captureFrame()`'s nullable result; `outcome`
abstracts the external classifier; `draw` is the `Math.random()` sample.
If the frame is null the cycle is skipped; if `analyzeFrame` throws the
`catch` swallows it; otherwise: set rendered status/message, update
stats (elapsed = (now − checkpoint)/1000, then checkpoint := now), badge
check, append to the log unless ERROR, and run the voice logic — whose
`speak` closure still sees the *pre-cycle* rendered status. -/
def performCheck (catalog : List BadgeDef) (cfg : AudioConfig)
    (apiKey : Option String) (tStart now : ℕ) (frame : Option String)
    (outcome : ClassifierOutcome) (draw : ℚ) (s : AppState) :
    AppState × CycleEffects :=
  let s1 := { s with lastCheckTime := tStart }
  match frame with
  | none => (s1, noEffects)
  | some frm =>
      match analyzeFrame apiKey frm outcome with
      | Except.error _ => (s1, noEffects)
      | Except.ok result =>
          let elapsedSeconds : ℚ := ((now : ℚ) - (s1.lastCheckTime : ℚ)) / 1000
          let u := updateStats catalog s.stats result.status elapsedSeconds
          let logs' :=
            if result.status ≠ FocusStatus.ERROR then
              appendLog (mkLogEntry now result.status result.message) s.logs
            else s.logs
          let voice :=
            if result.status = FocusStatus.DISTRACTED
                ∨ result.status = FocusStatus.ABSENT then
              speak cfg s.status result.message
            else if result.status = FocusStatus.FOCUSED ∧ draw > (85 : ℚ) / 100 then
              speak cfg s.status result.message
            else VoiceIntent.silent
          ( { stats := u.1
              lastCheckTime := now
              logs := logs'
              status := result.status
              lastMessage := result.message }
          , { logAppended := result.status ≠ FocusStatus.ERROR
              badgeEvaluated := true
              voice := voice
              newBadgeId := u.2.map BadgeDef.id
              badgeAnnounced := cfg.audioEnabled && u.2.isSome } )

/-- One cycle's scheduler-side inputs: start instant, resolution instant,
captured frame, classifier outcome, random draw. -/
structure CycleInput where
  tStart : ℕ
  now : ℕ
  frame : Option String
  outcome : ClassifierOutcome
  draw : ℚ
deriving DecidableEq, Repr

/-- Run a sequence of cycles, threading the engine state. -/
def runCycles (catalog : List BadgeDef) (cfg : AudioConfig)
    (apiKey : Option String) (inputs : List CycleInput) (s : AppState) :
    AppState :=
  inputs.foldl
    (fun st c => (performCheck catalog cfg apiKey c.tStart c.now c.frame c.outcome c.draw st).1)
    s

/-- The engine state when monitoring starts at instant `t0`: zero stats,
checkpoint clock set to now, empty log, IDLE status (`App.tsx`). -/
def initialState (t0 : ℕ) : AppState :=
  { stats := initialStats
    lastCheckTime := t0
    logs := []
    status := FocusStatus.IDLE
    lastMessage := "" }

/-- A fixed FOCUSED classification result used in concrete scenarios. -/
def focusedResult : AnalysisResult :=
  { status := FocusStatus.FOCUSED, message := "ok", confidence := 9 / 10 }

section StatsLemmas

variable (catalog : List BadgeDef) (prev : UserStats) (st : FocusStatus) (e : ℚ)

lemma updateStats_total :
    (updateStats catalog prev st e).1.totalFocusTimeSeconds
      = (applyStatus prev st e).totalFocusTimeSeconds := by
  unfold updateStats
  cases h : checkBadges catalog (applyStatus prev st e) (applyStatus prev st e).badges <;>
    simp [h]

lemma updateStats_streak :
    (updateStats catalog prev st e).1.currentStreakSeconds
      = (applyStatus prev st e).currentStreakSeconds := by
  unfold updateStats
  cases h : checkBadges catalog (applyStatus prev st e) (applyStatus prev st e).badges <;>
    simp [h]

lemma updateStats_longest :
    (updateStats catalog prev st e).1.longestStreakSeconds
      = (applyStatus prev st e).longestStreakSeconds := by
  unfold updateStats
  cases h : checkBadges catalog (applyStatus prev st e) (applyStatus prev st e).badges <;>
    simp [h]

lemma updateStats_distraction :
    (updateStats catalog prev st e).1.distractionCount
      = (applyStatus prev st e).distractionCount := by
  unfold updateStats
  cases h : checkBadges catalog (applyStatus prev st e) (applyStatus prev st e).badges <;>
    simp [h]

end StatsLemmas

lemma applyStatus_FOCUSED (prev : UserStats) (e : ℚ) :
    applyStatus prev FocusStatus.FOCUSED e =
      { prev with
        totalFocusTimeSeconds :=
          prev.totalFocusTimeSeconds + Int.floor (if e > 20 then (0 : ℚ) else min e 10)
        currentStreakSeconds :=
          prev.currentStreakSeconds + Int.floor (if e > 20 then (0 : ℚ) else min e 10)
        longestStreakSeconds :=
          if prev.currentStreakSeconds + Int.floor (if e > 20 then (0 : ℚ) else min e 10)
              > prev.longestStreakSeconds
          then prev.currentStreakSeconds + Int.floor (if e > 20 then (0 : ℚ) else min e 10)
          else prev.longestStreakSeconds } := by
  simp [applyStatus]

lemma applyStatus_negative (prev : UserStats) (st : FocusStatus) (e : ℚ)
    (h : st = FocusStatus.DISTRACTED ∨ st = FocusStatus.ABSENT) :
    applyStatus prev st e =
      { prev with
        currentStreakSeconds := 0
        distractionCount := prev.distractionCount + 1 } := by
  rcases h with h | h <;> subst h <;> simp [applyStatus]

lemma applyStatus_neutral (prev : UserStats) (st : FocusStatus) (e : ℚ)
    (h : st = FocusStatus.IDLE ∨ st = FocusStatus.ERROR) :
    applyStatus prev st e = prev := by
  rcases h with h | h <;> subst h <;> simp [applyStatus]

/-- C4: for every previous stats state and elapsed time, the accumulator
computes validElapsed = 0 when elapsedSeconds > 20 and min(elapsedSeconds, 10)
otherwise; on FOCUSED it adds floor(validElapsed) to both
totalFocusTimeSeconds and currentStreakSeconds, raises
longestStreakSeconds to the new streak exactly when the streak exceeds
it, and leaves distractionCount unchanged. -/
theorem C4_focused_accumulation (catalog : List BadgeDef) (prev : UserStats) (e : ℚ) :
    (updateStats catalog prev FocusStatus.FOCUSED e).1.totalFocusTimeSeconds
        = prev.totalFocusTimeSeconds + Int.floor (if e > 20 then (0 : ℚ) else min e 10)
      ∧ (updateStats catalog prev FocusStatus.FOCUSED e).1.currentStreakSeconds
        = prev.currentStreakSeconds + Int.floor (if e > 20 then (0 : ℚ) else min e 10)
      ∧ (updateStats catalog prev FocusStatus.FOCUSED e).1.longestStreakSeconds
        = max prev.longestStreakSeconds
            ((updateStats catalog prev FocusStatus.FOCUSED e).1.currentStreakSeconds)
      ∧ (updateStats catalog prev FocusStatus.FOCUSED e).1.distractionCount
        = prev.distractionCount := by
  refine ⟨?_, ?_, ?_, ?_⟩ <;>
    simp only [updateStats_total, updateStats_streak, updateStats_longest,
      updateStats_distraction, applyStatus_FOCUSED]
  rcases lt_or_le prev.longestStreakSeconds
      (prev.currentStreakSeconds + Int.floor (if e > 20 then (0 : ℚ) else min e 10))
    with h | h
  · rw [if_pos h, max_eq_right (le_of_lt h)]
  · rw [if_neg (not_lt.mpr h), max_eq_left h]

/-- C5: on DISTRACTED or ABSENT, the accumulator sets
currentStreakSeconds to 0 and increments distractionCount by exactly 1,
regardless of elapsed time. -/
theorem C5_distraction_reset (catalog : List BadgeDef) (prev : UserStats)
    (st : FocusStatus) (e : ℚ)
    (h : st = FocusStatus.DISTRACTED ∨ st = FocusStatus.ABSENT) :
    (updateStats catalog prev st e).1.currentStreakSeconds = 0
      ∧ (updateStats catalog prev st e).1.distractionCount
        = prev.distractionCount + 1 := by
  rw [updateStats_streak, updateStats_distraction, applyStatus_negative prev st e h]
  exact ⟨rfl, rfl⟩

/-- Witness for C5 at a concrete input. -/
theorem C5_distraction_reset_witness :
    (updateStats [] initialStats FocusStatus.DISTRACTED 5).1.currentStreakSeconds = 0
      ∧ (updateStats [] initialStats FocusStatus.DISTRACTED 5).1.distractionCount
        = initialStats.distractionCount + 1 :=
  C5_distraction_reset [] initialStats FocusStatus.DISTRACTED 5 (Or.inl rfl)

/-- C6 counterexample: with elapsedSeconds = 25 > 20 and status
DISTRACTED, the accumulator is not a no-op: starting from stats
(0, 5, 5, 0) it resets the streak and increments distractionCount. -/
theorem C6_counterexample :
    (25 : ℚ) > 20
      ∧ (updateStats [] ⟨0, 5, 5, 0, []⟩ FocusStatus.DISTRACTED 25).1
          ≠ (⟨0, 5, 5, 0, []⟩ : UserStats) := by
  constructor
  · norm_num
  · intro hcontra
    have h := congrArg UserStats.distractionCount hcontra
    rw [updateStats_distraction] at h
    simp [applyStatus] at h

/-- C6 amended: if elapsedSeconds > 20 the update behaves exactly as
with zero elapsed time: for statuses other than DISTRACTED/ABSENT the
stats are unchanged (for FOCUSED this uses the invariant
currentStreak ≤ longestStreak), while DISTRACTED/ABSENT still reset the
streak and increment distractionCount. -/
theorem C6_amended_zero_elapsed (prev : UserStats) (st : FocusStatus) (e : ℚ)
    (he : e > 20)
    (hinv : prev.currentStreakSeconds ≤ prev.longestStreakSeconds) :
    applyStatus prev st e = applyStatus prev st 0
      ∧ (st ≠ FocusStatus.DISTRACTED ∧ st ≠ FocusStatus.ABSENT →
          applyStatus prev st e = prev)
      ∧ (st = FocusStatus.DISTRACTED ∨ st = FocusStatus.ABSENT →
          (applyStatus prev st e).currentStreakSeconds = 0
            ∧ (applyStatus prev st e).distractionCount = prev.distractionCount + 1) := by
  have h0 : ((if (0 : ℚ) > 20 then (0 : ℚ) else min 0 10)) = 0 := by norm_num
  have he' : ((if e > 20 then (0 : ℚ) else min e 10)) = 0 := by rw [if_pos he]
  have hfoc : ∀ e' : ℚ, ((if e' > 20 then (0 : ℚ) else min e' 10)) = 0 →
      applyStatus prev FocusStatus.FOCUSED e' = prev := by
    intro e' h
    rw [applyStatus_FOCUSED, h]
    have hni : ¬ prev.longestStreakSeconds < prev.currentStreakSeconds := not_lt.mpr hinv
    simp [hni]
  refine ⟨?_, ?_, ?_⟩
  · cases st
    case FOCUSED => rw [hfoc e he', hfoc 0 h0]
    case DISTRACTED =>
      rw [applyStatus_negative prev _ e (Or.inl rfl), applyStatus_negative prev _ 0 (Or.inl rfl)]
    case ABSENT =>
      rw [applyStatus_negative prev _ e (Or.inr rfl), applyStatus_negative prev _ 0 (Or.inr rfl)]
    case IDLE =>
      rw [applyStatus_neutral prev _ e (Or.inl rfl), applyStatus_neutral prev _ 0 (Or.inl rfl)]
    case ERROR =>
      rw [applyStatus_neutral prev _ e (Or.inr rfl), applyStatus_neutral prev _ 0 (Or.inr rfl)]
  · rintro ⟨hd, ha⟩
    cases st
    case FOCUSED => exact hfoc e he'
    case DISTRACTED => exact absurd rfl hd
    case ABSENT => exact absurd rfl ha
    case IDLE => exact applyStatus_neutral prev _ e (Or.inl rfl)
    case ERROR => exact applyStatus_neutral prev _ e (Or.inr rfl)
  · intro h
    rw [applyStatus_negative prev st e h]
    exact ⟨rfl, rfl⟩

/-- Witness for C6 amended at a concrete input. -/
theorem C6_amended_zero_elapsed_witness :
    applyStatus initialStats FocusStatus.FOCUSED 25
        = applyStatus initialStats FocusStatus.FOCUSED 0
      ∧ (FocusStatus.FOCUSED ≠ FocusStatus.DISTRACTED
            ∧ FocusStatus.FOCUSED ≠ FocusStatus.ABSENT →
          applyStatus initialStats FocusStatus.FOCUSED 25 = initialStats)
      ∧ (FocusStatus.FOCUSED = FocusStatus.DISTRACTED
            ∨ FocusStatus.FOCUSED = FocusStatus.ABSENT →
          (applyStatus initialStats FocusStatus.FOCUSED 25).currentStreakSeconds = 0
            ∧ (applyStatus initialStats FocusStatus.FOCUSED 25).distractionCount
              = initialStats.distractionCount + 1) :=
  C6_amended_zero_elapsed initialStats FocusStatus.FOCUSED 25 (by norm_num) (by decide)

/-- C8: the invariant currentStreakSeconds ≤ longestStreakSeconds is
preserved by every accumulator transition (on stats states of the data
model, whose fields are nonnegative integers). -/
theorem C8_streak_invariant (catalog : List BadgeDef) (prev : UserStats)
    (st : FocusStatus) (e : ℚ)
    (h1 : prev.currentStreakSeconds ≤ prev.longestStreakSeconds)
    (h2 : 0 ≤ prev.longestStreakSeconds) :
    (updateStats catalog prev st e).1.currentStreakSeconds
      ≤ (updateStats catalog prev st e).1.longestStreakSeconds := by
  rw [updateStats_streak, updateStats_longest]
  cases st
  case FOCUSED =>
    rw [applyStatus_FOCUSED]
    simp only
    split <;> omega
  case DISTRACTED =>
    rw [applyStatus_negative prev _ e (Or.inl rfl)]
    exact h2
  case ABSENT =>
    rw [applyStatus_negative prev _ e (Or.inr rfl)]
    exact h2
  case IDLE =>
    rw [applyStatus_neutral prev _ e (Or.inl rfl)]
    exact h1
  case ERROR =>
    rw [applyStatus_neutral prev _ e (Or.inr rfl)]
    exact h1

/-- Witness for C8 at a concrete input. -/
theorem C8_streak_invariant_witness :
    (updateStats [] initialStats FocusStatus.FOCUSED 5).1.currentStreakSeconds
      ≤ (updateStats [] initialStats FocusStatus.FOCUSED 5).1.longestStreakSeconds :=
  C8_streak_invariant [] initialStats FocusStatus.FOCUSED 5 (by decide) (by decide)

/-- On a cycle whose classifier call resolves to `Except.ok r`, the next
state is exactly: stats updated with elapsed = (now − tStart)/1000 (the
checkpoint was reset to tStart at the start of this very cycle),
checkpoint moved to now, the log prepended-and-truncated unless ERROR,
and the rendered status/message replaced. -/
lemma performCheck_ok_state (catalog : List BadgeDef) (cfg : AudioConfig)
    (apiKey : Option String) (tStart now : ℕ) (frm : String)
    (outcome : ClassifierOutcome) (draw : ℚ) (s : AppState) (r : AnalysisResult)
    (hok : analyzeFrame apiKey frm outcome = Except.ok r) :
    (performCheck catalog cfg apiKey tStart now (some frm) outcome draw s).1 =
      { stats := (updateStats catalog s.stats r.status (((now : ℚ) - (tStart : ℚ)) / 1000)).1
        lastCheckTime := now
        logs :=
          if r.status ≠ FocusStatus.ERROR then
            appendLog (mkLogEntry now r.status r.message) s.logs
          else s.logs
        status := r.status
        lastMessage := r.message } := by
  simp [performCheck, hok]

/-- C3 counterexample: with the API key absent, `analyzeFrame` does not
return a synthetic ERROR result — it propagates a thrown failure. -/
theorem C3_counterexample :
    analyzeFrame none "" ClassifierOutcome.callFailed
      = Except.error "API Key is missing." := by
  simp [analyzeFrame]

/-- C3 amended: for network/service errors, empty responses and
malformed responses, `analyzeFrame` recovers with a synthetic ERROR
result of zero confidence; but a missing (or empty) API key is thrown
before the recovery block and so is propagated to the caller. -/
theorem C3_amended_failures_recovered (k img : String) (outcome : ClassifierOutcome)
    (hk : k ≠ "")
    (hfail : outcome = ClassifierOutcome.callFailed
      ∨ outcome = ClassifierOutcome.emptyText
      ∨ outcome = ClassifierOutcome.badJson) :
    analyzeFrame (some k) img outcome
        = Except.ok
            { status := FocusStatus.ERROR, message := "Analysis failed", confidence := 0 }
      ∧ analyzeFrame none img outcome = Except.error "API Key is missing." := by
  constructor
  · rcases hfail with h | h | h <;> subst h <;> simp [analyzeFrame, hk]
  · simp [analyzeFrame]

/-- Witness for C3 amended at a concrete input. -/
theorem C3_amended_failures_recovered_witness :
    (analyzeFrame (some "key") "" ClassifierOutcome.callFailed
        = Except.ok
            { status := FocusStatus.ERROR, message := "Analysis failed", confidence := 0 }
      ∧ analyzeFrame none "" ClassifierOutcome.callFailed
          = Except.error "API Key is missing.") :=
  C3_amended_failures_recovered "key" "" ClassifierOutcome.callFailed
    (by decide) (Or.inl rfl)

/-- C2 counterexample: a cycle whose classification result has status
ERROR (here synthesized after a failed classifier call) does invoke the
badge evaluator — `updateStats`, including its `checkBadges` call, runs
on every cycle regardless of status. -/
theorem C2_counterexample :
    (performCheck [] ⟨true, false, none, true⟩ (some "k") 0 1000 (some "f")
          ClassifierOutcome.callFailed 0 (initialState 0)).1.status = FocusStatus.ERROR
      ∧ (performCheck [] ⟨true, false, none, true⟩ (some "k") 0 1000 (some "f")
          ClassifierOutcome.callFailed 0 (initialState 0)).2.badgeEvaluated = true := by
  constructor <;>
    simp [performCheck, analyzeFrame, updateStats, checkBadges, applyStatus, initialState]

/-- C2 amended: on every cycle whose classification result has status
ERROR, no log entry is appended and no message vocalization intent is
produced, but badge evaluation does occur (the evaluator is invoked on
every cycle regardless of status). -/
theorem C2_amended_error_cycle (catalog : List BadgeDef) (cfg : AudioConfig)
    (apiKey : Option String) (tStart now : ℕ) (frm : String)
    (outcome : ClassifierOutcome) (draw : ℚ) (s : AppState) (r : AnalysisResult)
    (hok : analyzeFrame apiKey frm outcome = Except.ok r)
    (herr : r.status = FocusStatus.ERROR) :
    (performCheck catalog cfg apiKey tStart now (some frm) outcome draw s).2.logAppended
        = false
      ∧ (performCheck catalog cfg apiKey tStart now (some frm) outcome draw s).2.voice
        = VoiceIntent.silent
      ∧ (performCheck catalog cfg apiKey tStart now (some frm) outcome draw s).2.badgeEvaluated
        = true := by
  refine ⟨?_, ?_, ?_⟩ <;> simp [performCheck, hok, herr]

/-- Witness for C2 amended at a concrete input. -/
theorem C2_amended_error_cycle_witness :
    (performCheck [] ⟨true, false, none, true⟩ (some "k") 0 1000 (some "f")
          ClassifierOutcome.callFailed 0 (initialState 0)).2.logAppended = false
      ∧ (performCheck [] ⟨true, false, none, true⟩ (some "k") 0 1000 (some "f")
          ClassifierOutcome.callFailed 0 (initialState 0)).2.voice = VoiceIntent.silent
      ∧ (performCheck [] ⟨true, false, none, true⟩ (some "k") 0 1000 (some "f")
          ClassifierOutcome.callFailed 0 (initialState 0)).2.badgeEvaluated = true :=
  C2_amended_error_cycle [] ⟨true, false, none, true⟩ (some "k") 0 1000 "f"
    ClassifierOutcome.callFailed 0 (initialState 0)
    { status := FocusStatus.ERROR, message := "Analysis failed", confidence := 0 }
    (by simp [analyzeFrame]) rfl

/-- C7: a cycle classified DISTRACTED while the previously rendered
status was FOCUSED, with audio enabled, a custom clip stored and the
use-custom-recording flag set, produces a synthesized-speech intent and
not the custom clip: the `speak` closure tests the stale rendered status
rather than the cycle's classification. -/
theorem C7_stale_status_plays_tts :
    (performCheck [] ⟨true, true, some "clip", true⟩ (some "k") 0 1000 (some "f")
          (ClassifierOutcome.parsed
            { status := FocusStatus.DISTRACTED, message := "msg", confidence := 1 }) 0
          { initialState 0 with status := FocusStatus.FOCUSED }).1.status
        = FocusStatus.DISTRACTED
      ∧ (performCheck [] ⟨true, true, some "clip", true⟩ (some "k") 0 1000 (some "f")
          (ClassifierOutcome.parsed
            { status := FocusStatus.DISTRACTED, message := "msg", confidence := 1 }) 0
          { initialState 0 with status := FocusStatus.FOCUSED }).2.voice
        = VoiceIntent.tts "msg" := by
  constructor <;>
    simp [performCheck, analyzeFrame, speak, truthyString, initialState]

/-- C1: in a monitoring run from all-zero stats with 3 consecutive
FOCUSED cycles spaced 5 s apart (cycle starts at 0 ms, 5000 ms,
10000 ms) and 1 s capture/classification latency per cycle, the
resulting total focus time is 3 seconds, not 15: because the checkpoint
clock is reset at the start of each cycle and read when the same cycle's
classification resolves, the elapsed time fed to the accumulator is the
processing latency of the current cycle, not the inter-cycle interval. -/
theorem C1_elapsed_is_processing_latency :
    (runCycles [] ⟨true, false, none, true⟩ (some "k")
          [⟨0, 1000, some "f", ClassifierOutcome.parsed focusedResult, 0⟩,
           ⟨5000, 6000, some "f", ClassifierOutcome.parsed focusedResult, 0⟩,
           ⟨10000, 11000, some "f", ClassifierOutcome.parsed focusedResult, 0⟩]
          (initialState 0)).stats.totalFocusTimeSeconds = 3
      ∧ (runCycles [] ⟨true, false, none, true⟩ (some "k")
          [⟨0, 1000, some "f", ClassifierOutcome.parsed focusedResult, 0⟩,
           ⟨5000, 6000, some "f", ClassifierOutcome.parsed focusedResult, 0⟩,
           ⟨10000, 11000, some "f", ClassifierOutcome.parsed focusedResult, 0⟩]
          (initialState 0)).stats.currentStreakSeconds = 3
      ∧ (runCycles [] ⟨true, false, none, true⟩ (some "k")
          [⟨0, 1000, some "f", ClassifierOutcome.parsed focusedResult, 0⟩,
           ⟨5000, 6000, some "f", ClassifierOutcome.parsed focusedResult, 0⟩,
           ⟨10000, 11000, some "f", ClassifierOutcome.parsed focusedResult, 0⟩]
          (initialState 0)).stats.longestStreakSeconds = 3
      ∧ (runCycles [] ⟨true, false, none, true⟩ (some "k")
          [⟨0, 1000, some "f", ClassifierOutcome.parsed focusedResult, 0⟩,
           ⟨5000, 6000, some "f", ClassifierOutcome.parsed focusedResult, 0⟩,
           ⟨10000, 11000, some "f", ClassifierOutcome.parsed focusedResult, 0⟩]
          (initialState 0)).stats.distractionCount = 0
      ∧ (runCycles [] ⟨true, false, none, true⟩ (some "k")
          [⟨0, 1000, some "f", ClassifierOutcome.parsed focusedResult, 0⟩,
           ⟨5000, 6000, some "f", ClassifierOutcome.parsed focusedResult, 0⟩,
           ⟨10000, 11000, some "f", ClassifierOutcome.parsed focusedResult, 0⟩]
          (initialState 0)).stats.totalFocusTimeSeconds ≠ 15 := by
  have hok : analyzeFrame (some "k") "f" (ClassifierOutcome.parsed focusedResult)
      = Except.ok focusedResult := by
    simp [analyzeFrame]
  have ustep : ∀ a : ℤ,
      (updateStats [] ⟨a, a, a, 0, []⟩ FocusStatus.FOCUSED 1).1
        = ⟨a + 1, a + 1, a + 1, 0, []⟩ := by
    intro a
    unfold updateStats
    rw [applyStatus_FOCUSED]
    norm_num [min_def, checkBadges]
  have he1 : (((1000 : ℕ) : ℚ) - ((0 : ℕ) : ℚ)) / 1000 = 1 := by norm_num
  have he2 : (((6000 : ℕ) : ℚ) - ((5000 : ℕ) : ℚ)) / 1000 = 1 := by norm_num
  have he3 : (((11000 : ℕ) : ℚ) - ((10000 : ℕ) : ℚ)) / 1000 = 1 := by norm_num
  have hs1 : (performCheck [] ⟨true, false, none, true⟩ (some "k") 0 1000 (some "f")
        (ClassifierOutcome.parsed focusedResult) 0 (initialState 0)).1
      = { stats := ⟨1, 1, 1, 0, []⟩
          lastCheckTime := 1000
          logs := appendLog (mkLogEntry 1000 FocusStatus.FOCUSED "ok") []
          status := FocusStatus.FOCUSED
          lastMessage := "ok" } := by
    rw [performCheck_ok_state [] ⟨true, false, none, true⟩ (some "k") 0 1000 "f"
      (ClassifierOutcome.parsed focusedResult) 0 (initialState 0) focusedResult hok]
    simp only [initialState, initialStats, focusedResult, he1]
    rw [show ((⟨0, 0, 0, 0, []⟩ : UserStats)) = ⟨(0 : ℤ), 0, 0, 0, []⟩ from rfl, ustep 0]
    simp
  have hs2 : (performCheck [] ⟨true, false, none, true⟩ (some "k") 5000 6000 (some "f")
        (ClassifierOutcome.parsed focusedResult) 0
        { stats := ⟨1, 1, 1, 0, []⟩
          lastCheckTime := 1000
          logs := appendLog (mkLogEntry 1000 FocusStatus.FOCUSED "ok") []
          status := FocusStatus.FOCUSED
          lastMessage := "ok" }).1
      = { stats := ⟨2, 2, 2, 0, []⟩
          lastCheckTime := 6000
          logs := appendLog (mkLogEntry 6000 FocusStatus.FOCUSED "ok")
            (appendLog (mkLogEntry 1000 FocusStatus.FOCUSED "ok") [])
          status := FocusStatus.FOCUSED
          lastMessage := "ok" } := by
    rw [performCheck_ok_state [] ⟨true, false, none, true⟩ (some "k") 5000 6000 "f"
      (ClassifierOutcome.parsed focusedResult) 0 _ focusedResult hok]
    simp only [focusedResult, he2]
    rw [ustep 1]
    simp
  have hs3 : (performCheck [] ⟨true, false, none, true⟩ (some "k") 10000 11000 (some "f")
        (ClassifierOutcome.parsed focusedResult) 0
        { stats := ⟨2, 2, 2, 0, []⟩
          lastCheckTime := 6000
          logs := appendLog (mkLogEntry 6000 FocusStatus.FOCUSED "ok")
            (appendLog (mkLogEntry 1000 FocusStatus.FOCUSED "ok") [])
          status := FocusStatus.FOCUSED
          lastMessage := "ok" }).1.stats
      = ⟨3, 3, 3, 0, []⟩ := by
    rw [performCheck_ok_state [] ⟨true, false, none, true⟩ (some "k") 10000 11000 "f"
      (ClassifierOutcome.parsed focusedResult) 0 _ focusedResult hok]
    simp only [focusedResult, he3]
    rw [ustep 2]
    norm_num
  simp only [runCycles, List.foldl]
  rw [hs1, hs2, hs3]
  refine ⟨rfl, rfl, rfl, rfl, by decide⟩

/-- C9: the log buffer never exceeds 50 entries: a new entry is
prepended at the head (newest-first) and the buffer truncated to its
first 50 entries; in a run of 51 successful cycles (5 s apart starting
at 0 ms) the entry created on cycle 1 is in the buffer after cycle 1 but
absent from the final buffer, which holds exactly 50 entries. -/
theorem C9_log_buffer_bounded :
    (∀ (entry : LogEntry) (logs : List LogEntry), (appendLog entry logs).length ≤ 50)
      ∧ (∀ (entry : LogEntry) (logs : List LogEntry),
          (appendLog entry logs).head? = some entry)
      ∧ ((List.range 51).foldl
          (fun acc i => appendLog (mkLogEntry (5000 * i) FocusStatus.FOCUSED "ok") acc)
          []).length = 50
      ∧ mkLogEntry 0 FocusStatus.FOCUSED "ok"
          ∈ appendLog (mkLogEntry 0 FocusStatus.FOCUSED "ok") []
      ∧ mkLogEntry 0 FocusStatus.FOCUSED "ok"
          ∉ ((List.range 51).foldl
              (fun acc i => appendLog (mkLogEntry (5000 * i) FocusStatus.FOCUSED "ok") acc)
              []) := by
  refine ⟨?_, ?_, by decide, by decide, by decide⟩
  · intro entry logs
    simp only [appendLog, List.length_take]
    omega
  · intro entry logs
    rfl

/-- C10: a log entry's id is the decimal rendering of its creation time
in milliseconds, so two entries created in the same millisecond receive
equal ids regardless of their status or message. -/
theorem C10_log_id_same_millisecond (t : ℕ) (st1 st2 : FocusStatus) (m1 m2 : String) :
    (mkLogEntry t st1 m1).id = Nat.repr t
      ∧ (mkLogEntry t st1 m1).id = (mkLogEntry t st2 m2).id :=
  ⟨rfl, rfl⟩

end FocusGuardian
